import Mathlib

/-!
Verification development for the signalk-weatherflow plugin.

The TypeScript sources are shallowly embedded:
* IEEE-754 doubles are idealized as real numbers `ℝ` (exact reals); integer
  epochs, counts and milliseconds are `ℤ`.
* `Math.atan2 y x` is `Complex.arg (x + y*I)` (same range `(-π, π]`, same
  value at `(0,0)`).
* JavaScript's truthiness-based `||` on numbers is modeled by `jsOr`
  (`0` is falsy); on optional values by `jsOrElse`.
* JavaScript's `%` (remainder with the dividend's sign, i.e. truncated
  division) is `jsRem`.
* ISO-8601 timestamp strings are identified with their epoch-millisecond
  values, so `new Date(x).getTime()` and `Date.toISOString` are the
  identity on `ℤ`; wall-clock reads (`new Date()`) become explicit `now`
  parameters.  The `timestamp`/`source` bookkeeping fields of
  `DerivedWindValues` (wall clock + vessel-name tag) are omitted from the
  embedded record since no verified property observes them.
-/

namespace WeatherFlow

noncomputable section

/-! ## src/windCalculations.ts : helpers -/

/-- Converts degrees to radians (`degToRad`, windCalculations.ts line 45). -/
def degToRad (deg : ℝ) : ℝ := deg * Real.pi / 180

/-- Converts radians to degrees (`radToDeg`, windCalculations.ts line 50). -/
def radToDeg (rad : ℝ) : ℝ := rad * 180 / Real.pi

/-- First `while` loop of `normalizeAngle` (windCalculations.ts line 56):
`while (angle > Math.PI) angle -= 2 * Math.PI`. -/
def normalizeAngleDown (angle : ℝ) : ℝ :=
  if angle > Real.pi then normalizeAngleDown (angle - 2 * Real.pi) else angle
termination_by (⌈(angle - Real.pi) / (2 * Real.pi)⌉).toNat
decreasing_by
  have hpi := Real.pi_pos
  have ht : (0:ℝ) < (angle - Real.pi) / (2 * Real.pi) := by
    apply div_pos <;> linarith
  have hceil : 0 < ⌈(angle - Real.pi) / (2 * Real.pi)⌉ := Int.ceil_pos.mpr ht
  have heq : (angle - 2 * Real.pi - Real.pi) / (2 * Real.pi)
      = (angle - Real.pi) / (2 * Real.pi) - 1 := by
    field_simp
    ring
  rw [heq, Int.ceil_sub_one]
  omega

/-- Second `while` loop of `normalizeAngle` (windCalculations.ts line 57):
`while (angle < -Math.PI) angle += 2 * Math.PI`. -/
def normalizeAngleUp (angle : ℝ) : ℝ :=
  if angle < -Real.pi then normalizeAngleUp (angle + 2 * Real.pi) else angle
termination_by (⌈(-angle - Real.pi) / (2 * Real.pi)⌉).toNat
decreasing_by
  have hpi := Real.pi_pos
  have ht : (0:ℝ) < (-angle - Real.pi) / (2 * Real.pi) := by
    apply div_pos <;> linarith
  have hceil : 0 < ⌈(-angle - Real.pi) / (2 * Real.pi)⌉ := Int.ceil_pos.mpr ht
  have heq : (-(angle + 2 * Real.pi) - Real.pi) / (2 * Real.pi)
      = (-angle - Real.pi) / (2 * Real.pi) - 1 := by
    field_simp
    ring
  rw [heq, Int.ceil_sub_one]
  omega

/-- Normalizes an angle to `[-π, π]` (`normalizeAngle`, windCalculations.ts
lines 55-59): the two sequential `while` loops. -/
def normalizeAngle (angle : ℝ) : ℝ := normalizeAngleUp (normalizeAngleDown angle)

/-- Converts an `atan2` result to a compass bearing (`toCompassBearing`,
windCalculations.ts line 62): `radians < 0 ? radians + 2π : radians`. -/
def toCompassBearing (radians : ℝ) : ℝ :=
  if radians < 0 then radians + 2 * Real.pi else radians

/-- `Math.atan2 y x`, idealized over `ℝ` as the argument of the complex
number `x + y·i`; the range is `(-π, π]` and `atan2 0 0 = 0`, as in JS. -/
def atan2 (y x : ℝ) : ℝ := Complex.arg (x + y * Complex.I)

/-- JavaScript `a || b` on two numbers: `a` is falsy exactly when it is `0`
(`NaN` is not modeled). -/
def jsOr (a b : ℝ) : ℝ := if a = 0 then b else a

/-- JavaScript `a || b` where `a` is an optional number: `undefined` and `0`
both fall through to `b`. -/
def jsOrElse (a : Option ℝ) (b : ℝ) : ℝ :=
  match a with
  | none => b
  | some x => if x = 0 then b else x

/-- Truncation toward zero of a real number, as JS number-to-integer
truncation. -/
def rtrunc (t : ℝ) : ℤ := if 0 ≤ t then ⌊t⌋ else ⌈t⌉

/-- JavaScript `x % y`: remainder of truncated division (takes the
dividend's sign). -/
def jsRem (x y : ℝ) : ℝ := x - y * rtrunc (x / y)

/-! ## src/windCalculations.ts : data and state -/

/-- Mutable numeric state of the `WindCalculations` class (windCalculations.ts
lines 11-18), fed by `updateNavigationData`. -/
structure WindState where
  headingTrue : ℝ
  headingMagnetic : ℝ
  courseOverGroundMagnetic : Option ℝ
  speedOverGround : ℝ
  airTemp : ℝ
  humidity : ℝ
  anchorSet : Bool
  anchorApparentBearing : ℝ

/-- `WindInput` (types.ts lines 282-286); `airTemperature` is optional. -/
structure WindInput where
  windSpeed : ℝ
  windDirection : ℝ
  airTemperature : Option ℝ

/-- `ApparentWindData` (types.ts lines 288-297). -/
structure ApparentWindData where
  windSpeed : ℝ
  windAngleRelative : ℝ
  windAngleRelativeRad : ℝ
  apparentTrueDeg : ℝ
  apparentMagneticDeg : ℝ
  apparentTrueRad : ℝ
  apparentMagneticRad : ℝ
  airTemperature : ℝ

/-- `DerivedWindValues` (types.ts lines 299-312), without the wall-clock
`timestamp` and vessel-name `source` strings. -/
structure DerivedWindValues where
  speedApparent : ℝ
  angleApparent : ℝ
  angleTrueGround : ℝ
  angleTrueWater : ℝ
  directionTrue : ℝ
  directionMagnetic : ℝ
  speedTrue : ℝ
  windChill : Option ℝ
  heatIndex : Option ℝ
  feelsLike : ℝ

/-- `WindCalculations.calculateApparentWind` (windCalculations.ts
lines 91-115).  `%` is `jsRem`, `windData.airTemperature || this.airTemp`
is `jsOrElse`. -/
def calculateApparentWind (s : WindState) (windData : WindInput) : ApparentWindData :=
  let headingTrueDeg := radToDeg s.headingTrue
  let headingMagneticDeg := radToDeg s.headingMagnetic
  let windAngleRelative := windData.windDirection
  let windAngleRelativeRad := degToRad windData.windDirection
  let apparentTrueDeg := jsRem (headingTrueDeg + windData.windDirection) 360
  let apparentMagneticDeg := jsRem (headingMagneticDeg + windData.windDirection) 360
  { windSpeed := windData.windSpeed
    windAngleRelative := windAngleRelative
    windAngleRelativeRad := windAngleRelativeRad
    apparentTrueDeg := apparentTrueDeg
    apparentMagneticDeg := apparentMagneticDeg
    apparentTrueRad := degToRad apparentTrueDeg
    apparentMagneticRad := degToRad apparentMagneticDeg
    airTemperature := jsOrElse windData.airTemperature s.airTemp }

/-- `WindCalculations.calculateDerivedWindValues` (windCalculations.ts
lines 118-231).  The `||` fallback on `windAngleRelativeRad` is `jsOr`; the
`windChillK`/`heatIndexK` nullable locals are `Option ℝ`; the feels-like
chain keeps the source's conditions, reading the selected option's value
(the `getD` default is unreachable in the branch where it appears). -/
def calculateDerivedWindValues (s : WindState) (apparentWindData : ApparentWindData) :
    DerivedWindValues :=
  let effectiveHeadingTrueRad := if s.anchorSet then s.anchorApparentBearing else s.headingTrue
  let effectiveHeadingMagneticRad :=
    if s.anchorSet then s.anchorApparentBearing else s.headingMagnetic
  let angleApparent := normalizeAngle
    (jsOr apparentWindData.windAngleRelativeRad
      (apparentWindData.apparentTrueRad - effectiveHeadingTrueRad))
  let effectiveSOG := if s.anchorSet then 0 else s.speedOverGround
  let Vx := effectiveSOG * Real.cos effectiveHeadingTrueRad
  let Vy := effectiveSOG * Real.sin effectiveHeadingTrueRad
  let Ax := apparentWindData.windSpeed * Real.cos apparentWindData.apparentTrueRad
  let Ay := apparentWindData.windSpeed * Real.sin apparentWindData.apparentTrueRad
  let Wx := Ax + Vx
  let Wy := Ay + Vy
  let trueWindSpeed := Real.sqrt (Wx * Wx + Wy * Wy)
  let rawTrueDirection := atan2 Wy Wx
  let trueWindDirTrueRad := toCompassBearing rawTrueDirection
  let angleTrueGround := normalizeAngle (trueWindDirTrueRad - effectiveHeadingTrueRad)
  let VxMag := effectiveSOG * Real.cos effectiveHeadingMagneticRad
  let VyMag := effectiveSOG * Real.sin effectiveHeadingMagneticRad
  let AxMag := apparentWindData.windSpeed * Real.cos apparentWindData.apparentMagneticRad
  let AyMag := apparentWindData.windSpeed * Real.sin apparentWindData.apparentMagneticRad
  let WxMag := AxMag + VxMag
  let WyMag := AyMag + VyMag
  let rawMagneticDirection := atan2 WyMag WxMag
  let trueWindDirMagRad := toCompassBearing rawMagneticDirection
  let angleTrueWater := normalizeAngle (trueWindDirMagRad - effectiveHeadingMagneticRad)
  let airTempC := s.airTemp
  let windSpeedKmh := trueWindSpeed * 3.6
  let windChillK : Option ℝ :=
    if airTempC ≤ 10 ∧ windSpeedKmh > 4.8 then
      let windChillC := 13.12 + 0.6215 * airTempC
        - 11.37 * windSpeedKmh ^ (0.16 : ℝ)
        + 0.3965 * airTempC * windSpeedKmh ^ (0.16 : ℝ)
      some (windChillC + 273.15)
    else none
  let airTempF := airTempC * 9 / 5 + 32
  let heatIndexK : Option ℝ :=
    if airTempF ≥ 80 ∧ s.humidity ≥ 40 then
      let T := airTempF
      let R := s.humidity
      let heatIndexF := -42.379 + 2.04901523 * T + 10.14333127 * R
        - 0.22475541 * T * R - 0.00683783 * T * T - 0.05481717 * R * R
        + 0.00122874 * T * T * R + 0.00085282 * T * R * R
        - 0.00000199 * T * T * R * R
      let heatIndexC := (heatIndexF - 32) * 5 / 9
      some (heatIndexC + 273.15)
    else none
  let feelsLikeK : ℝ :=
    if windChillK ≠ none ∧ airTempC ≤ 10 then windChillK.getD s.airTemp
    else if heatIndexK ≠ none ∧ airTempC ≥ 27 then heatIndexK.getD s.airTemp
    else s.airTemp
  { speedApparent := apparentWindData.windSpeed
    angleApparent := angleApparent
    angleTrueGround := angleTrueGround
    angleTrueWater := angleTrueWater
    directionTrue := trueWindDirTrueRad
    directionMagnetic := trueWindDirMagRad
    speedTrue := trueWindSpeed
    windChill := windChillK
    heatIndex := heatIndexK
    feelsLike := feelsLikeK }

/-! ## Helper lemmas about the wind embedding -/

theorem normalizeAngleDown_le (a : ℝ) : normalizeAngleDown a ≤ Real.pi := by
  rw [normalizeAngleDown]
  split
  · exact normalizeAngleDown_le (a - 2 * Real.pi)
  · linarith [not_lt.mp (by assumption : ¬ Real.pi < a)]
termination_by (⌈(a - Real.pi) / (2 * Real.pi)⌉).toNat
decreasing_by
  have hpi := Real.pi_pos
  have ht : (0:ℝ) < (a - Real.pi) / (2 * Real.pi) := by
    apply div_pos <;> linarith
  have hceil : 0 < ⌈(a - Real.pi) / (2 * Real.pi)⌉ := Int.ceil_pos.mpr ht
  have heq : (a - 2 * Real.pi - Real.pi) / (2 * Real.pi)
      = (a - Real.pi) / (2 * Real.pi) - 1 := by
    field_simp
    ring
  rw [heq, Int.ceil_sub_one]
  omega

theorem normalizeAngleUp_ge (a : ℝ) : -Real.pi ≤ normalizeAngleUp a := by
  rw [normalizeAngleUp]
  split
  · exact normalizeAngleUp_ge (a + 2 * Real.pi)
  · linarith [not_lt.mp (by assumption : ¬ a < -Real.pi)]
termination_by (⌈(-a - Real.pi) / (2 * Real.pi)⌉).toNat
decreasing_by
  have hpi := Real.pi_pos
  have ht : (0:ℝ) < (-a - Real.pi) / (2 * Real.pi) := by
    apply div_pos <;> linarith
  have hceil : 0 < ⌈(-a - Real.pi) / (2 * Real.pi)⌉ := Int.ceil_pos.mpr ht
  have heq : (-(a + 2 * Real.pi) - Real.pi) / (2 * Real.pi)
      = (-a - Real.pi) / (2 * Real.pi) - 1 := by
    field_simp
    ring
  rw [heq, Int.ceil_sub_one]
  omega

theorem normalizeAngleUp_le (a : ℝ) (h : a ≤ Real.pi) : normalizeAngleUp a ≤ Real.pi := by
  rw [normalizeAngleUp]
  split
  · have := Real.pi_pos
    exact normalizeAngleUp_le (a + 2 * Real.pi) (by linarith [‹a < -Real.pi›])
  · exact h
termination_by (⌈(-a - Real.pi) / (2 * Real.pi)⌉).toNat
decreasing_by
  have hpi := Real.pi_pos
  have ht : (0:ℝ) < (-a - Real.pi) / (2 * Real.pi) := by
    apply div_pos <;> linarith
  have hceil : 0 < ⌈(-a - Real.pi) / (2 * Real.pi)⌉ := Int.ceil_pos.mpr ht
  have heq : (-(a + 2 * Real.pi) - Real.pi) / (2 * Real.pi)
      = (-a - Real.pi) / (2 * Real.pi) - 1 := by
    field_simp
    ring
  rw [heq, Int.ceil_sub_one]
  omega

theorem normalizeAngle_mem_Icc (a : ℝ) :
    normalizeAngle a ∈ Set.Icc (-Real.pi) Real.pi :=
  ⟨normalizeAngleUp_ge _, normalizeAngleUp_le _ (normalizeAngleDown_le a)⟩

theorem atan2_le_pi (y x : ℝ) : atan2 y x ≤ Real.pi := Complex.arg_le_pi _

theorem neg_pi_lt_atan2 (y x : ℝ) : -Real.pi < atan2 y x := Complex.neg_pi_lt_arg _

theorem toCompassBearing_atan2_mem_Ico (y x : ℝ) :
    toCompassBearing (atan2 y x) ∈ Set.Ico 0 (2 * Real.pi) := by
  have h1 := atan2_le_pi y x
  have h2 := neg_pi_lt_atan2 y x
  have hpi := Real.pi_pos
  unfold toCompassBearing
  split <;> constructor <;> linarith [‹_›]

/-- Value of `atan2` on a positively scaled unit direction in `(-π, π]`. -/
theorem atan2_smul_cos_sin (s θ : ℝ) (hs : 0 < s) (h1 : -Real.pi < θ)
    (h2 : θ ≤ Real.pi) : atan2 (s * Real.sin θ) (s * Real.cos θ) = θ := by
  unfold atan2
  have hz : ((s * Real.cos θ : ℝ) : ℂ) + (s * Real.sin θ : ℝ) * Complex.I
      = (s : ℝ) * (Real.cos θ + Real.sin θ * Complex.I) := by
    push_cast
    ring
  rw [hz, Complex.arg_real_mul _ hs, Complex.ofReal_cos, Complex.ofReal_sin,
    Complex.arg_cos_add_sin_mul_I ⟨h1, h2⟩]

/-- The compass bearing recovered from a positively scaled direction
`θ ∈ [0, 2π)` is `θ` itself. -/
theorem toCompassBearing_atan2_smul (s θ : ℝ) (hs : 0 < s) (h0 : 0 ≤ θ)
    (h2 : θ < 2 * Real.pi) :
    toCompassBearing (atan2 (s * Real.sin θ) (s * Real.cos θ)) = θ := by
  have hpi := Real.pi_pos
  rcases le_or_lt θ Real.pi with hle | hgt
  · rw [atan2_smul_cos_sin s θ hs (by linarith) hle]
    unfold toCompassBearing
    rw [if_neg (by linarith)]
  · have hcos : Real.cos θ = Real.cos (θ - 2 * Real.pi) := by
      rw [Real.cos_sub_two_pi]
    have hsin : Real.sin θ = Real.sin (θ - 2 * Real.pi) := by
      rw [Real.sin_sub_two_pi]
    rw [hcos, hsin, atan2_smul_cos_sin s (θ - 2 * Real.pi) hs (by linarith) (by linarith)]
    unfold toCompassBearing
    rw [if_pos (by linarith)]
    ring

/-- Magnitude of a positively scaled unit direction. -/
theorem sqrt_smul_cos_sin (s θ : ℝ) (hs : 0 ≤ s) :
    Real.sqrt (s * Real.cos θ * (s * Real.cos θ) + s * Real.sin θ * (s * Real.sin θ)) = s := by
  have h : s * Real.cos θ * (s * Real.cos θ) + s * Real.sin θ * (s * Real.sin θ) = s ^ 2 := by
    have hpyth := Real.sin_sq_add_cos_sq θ
    nlinarith [hpyth]
  rw [h, Real.sqrt_sq hs]

/-- For a nonnegative dividend and positive divisor, `jsRem` agrees with the
mathematical remainder and lies in `[0, y)`. -/
theorem jsRem_mem_Ico (x y : ℝ) (hx : 0 ≤ x) (hy : 0 < y) :
    jsRem x y ∈ Set.Ico 0 y := by
  unfold jsRem rtrunc
  rw [if_pos (div_nonneg hx hy.le)]
  have hfr : x - y * ⌊x / y⌋ = y * Int.fract (x / y) := by
    unfold Int.fract
    field_simp
  rw [hfr]
  constructor
  · exact mul_nonneg hy.le (Int.fract_nonneg _)
  · have := Int.fract_lt_one (x / y)
    nlinarith [Int.fract_nonneg (x / y)]

/-! ## Definitional characterizations of the derived record's fields -/

/-- The effective speed-over-ground used by the true-wind composition
(windCalculations.ts line 138). -/
def effectiveSOG (s : WindState) : ℝ := if s.anchorSet then 0 else s.speedOverGround

/-- The effective true heading (windCalculations.ts lines 124-126). -/
def effectiveHeadingTrueRad (s : WindState) : ℝ :=
  if s.anchorSet then s.anchorApparentBearing else s.headingTrue

/-- The effective magnetic heading (windCalculations.ts lines 127-129). -/
def effectiveHeadingMagneticRad (s : WindState) : ℝ :=
  if s.anchorSet then s.anchorApparentBearing else s.headingMagnetic

/-- The true-frame summed wind vector components `(Wx, Wy)`
(windCalculations.ts lines 140-147). -/
def trueFrameW (s : WindState) (a : ApparentWindData) : ℝ × ℝ :=
  (a.windSpeed * Real.cos a.apparentTrueRad + effectiveSOG s * Real.cos (effectiveHeadingTrueRad s),
   a.windSpeed * Real.sin a.apparentTrueRad + effectiveSOG s * Real.sin (effectiveHeadingTrueRad s))

/-- The magnetic-frame summed wind vector components `(WxMag, WyMag)`
(windCalculations.ts lines 157-166). -/
def magFrameW (s : WindState) (a : ApparentWindData) : ℝ × ℝ :=
  (a.windSpeed * Real.cos a.apparentMagneticRad
      + effectiveSOG s * Real.cos (effectiveHeadingMagneticRad s),
   a.windSpeed * Real.sin a.apparentMagneticRad
      + effectiveSOG s * Real.sin (effectiveHeadingMagneticRad s))

theorem derived_speedTrue_def (s : WindState) (a : ApparentWindData) :
    (calculateDerivedWindValues s a).speedTrue
      = Real.sqrt ((trueFrameW s a).1 * (trueFrameW s a).1
          + (trueFrameW s a).2 * (trueFrameW s a).2) := rfl

theorem derived_directionTrue_def (s : WindState) (a : ApparentWindData) :
    (calculateDerivedWindValues s a).directionTrue
      = toCompassBearing (atan2 (trueFrameW s a).2 (trueFrameW s a).1) := rfl

theorem derived_directionMagnetic_def (s : WindState) (a : ApparentWindData) :
    (calculateDerivedWindValues s a).directionMagnetic
      = toCompassBearing (atan2 (magFrameW s a).2 (magFrameW s a).1) := rfl

theorem derived_angleApparent_def (s : WindState) (a : ApparentWindData) :
    (calculateDerivedWindValues s a).angleApparent
      = normalizeAngle (jsOr a.windAngleRelativeRad
          (a.apparentTrueRad - effectiveHeadingTrueRad s)) := rfl

theorem derived_angleTrueGround_def (s : WindState) (a : ApparentWindData) :
    (calculateDerivedWindValues s a).angleTrueGround
      = normalizeAngle ((calculateDerivedWindValues s a).directionTrue
          - effectiveHeadingTrueRad s) := rfl

theorem derived_angleTrueWater_def (s : WindState) (a : ApparentWindData) :
    (calculateDerivedWindValues s a).angleTrueWater
      = normalizeAngle ((calculateDerivedWindValues s a).directionMagnetic
          - effectiveHeadingMagneticRad s) := rfl

theorem derived_windChill_def (s : WindState) (a : ApparentWindData) :
    (calculateDerivedWindValues s a).windChill
      = (if s.airTemp ≤ 10 ∧ (calculateDerivedWindValues s a).speedTrue * 3.6 > 4.8 then
          some (13.12 + 0.6215 * s.airTemp
            - 11.37 * ((calculateDerivedWindValues s a).speedTrue * 3.6) ^ (0.16 : ℝ)
            + 0.3965 * s.airTemp * ((calculateDerivedWindValues s a).speedTrue * 3.6) ^ (0.16 : ℝ)
            + 273.15)
        else none) := rfl

theorem derived_heatIndex_def (s : WindState) (a : ApparentWindData) :
    (calculateDerivedWindValues s a).heatIndex
      = (if s.airTemp * 9 / 5 + 32 ≥ 80 ∧ s.humidity ≥ 40 then
          some ((-42.379 + 2.04901523 * (s.airTemp * 9 / 5 + 32) + 10.14333127 * s.humidity
            - 0.22475541 * (s.airTemp * 9 / 5 + 32) * s.humidity
            - 0.00683783 * (s.airTemp * 9 / 5 + 32) * (s.airTemp * 9 / 5 + 32)
            - 0.05481717 * s.humidity * s.humidity
            + 0.00122874 * (s.airTemp * 9 / 5 + 32) * (s.airTemp * 9 / 5 + 32) * s.humidity
            + 0.00085282 * (s.airTemp * 9 / 5 + 32) * s.humidity * s.humidity
            - 0.00000199 * (s.airTemp * 9 / 5 + 32) * (s.airTemp * 9 / 5 + 32) * s.humidity
              * s.humidity
            - 32) * 5 / 9 + 273.15)
        else none) := rfl

theorem derived_feelsLike_def (s : WindState) (a : ApparentWindData) :
    (calculateDerivedWindValues s a).feelsLike
      = (if (calculateDerivedWindValues s a).windChill ≠ none ∧ s.airTemp ≤ 10 then
          ((calculateDerivedWindValues s a).windChill).getD s.airTemp
        else if (calculateDerivedWindValues s a).heatIndex ≠ none ∧ s.airTemp ≥ 27 then
          ((calculateDerivedWindValues s a).heatIndex).getD s.airTemp
        else s.airTemp) := rfl

theorem apparent_windSpeed_def (s : WindState) (w : WindInput) :
    (calculateApparentWind s w).windSpeed = w.windSpeed := rfl

theorem apparent_apparentTrueRad_def (s : WindState) (w : WindInput) :
    (calculateApparentWind s w).apparentTrueRad
      = degToRad (jsRem (radToDeg s.headingTrue + w.windDirection) 360) := rfl

theorem apparent_apparentMagneticRad_def (s : WindState) (w : WindInput) :
    (calculateApparentWind s w).apparentMagneticRad
      = degToRad (jsRem (radToDeg s.headingMagnetic + w.windDirection) 360) := rfl

theorem apparent_airTemperature_def (s : WindState) (w : WindInput) :
    (calculateApparentWind s w).airTemperature = jsOrElse w.airTemperature s.airTemp := rfl

/-! ## Concrete inputs used for boundary cases -/

/-- A navigation state at rest: zero headings and speed-over-ground, anchor
flag off, humidity 0, air temperature `t`. -/
def calmState (t : ℝ) : WindState :=
  { headingTrue := 0
    headingMagnetic := 0
    courseOverGroundMagnetic := none
    speedOverGround := 0
    airTemp := t
    humidity := 0
    anchorSet := false
    anchorApparentBearing := 0 }

/-- An apparent-wind record blowing from dead ahead (all bearings 0) at
speed `v`. -/
def calmApparent (v : ℝ) : ApparentWindData :=
  { windSpeed := v
    windAngleRelative := 0
    windAngleRelativeRad := 0
    apparentTrueDeg := 0
    apparentMagneticDeg := 0
    apparentTrueRad := 0
    apparentMagneticRad := 0
    airTemperature := 0 }

theorem calm_speedTrue (t v : ℝ) (hv : 0 ≤ v) :
    (calculateDerivedWindValues (calmState t) (calmApparent v)).speedTrue = v := by
  rw [derived_speedTrue_def]
  have h1 : (trueFrameW (calmState t) (calmApparent v)).1 = v := by
    simp [trueFrameW, calmState, calmApparent, effectiveSOG, effectiveHeadingTrueRad]
  have h2 : (trueFrameW (calmState t) (calmApparent v)).2 = 0 := by
    simp [trueFrameW, calmState, calmApparent, effectiveSOG, effectiveHeadingTrueRad]
  rw [h1, h2, mul_zero, add_zero, Real.sqrt_mul_self hv]

/-! ## Claim theorems about the wind calculator -/

/-- Claim C10: for every input, the derived vessel-relative angles
(`angleApparent`, `angleTrueGround`, `angleTrueWater`) lie in the closed
interval `[-π, π]`, and the derived compass bearings (`directionTrue`,
`directionMagnetic`) lie in `[0, 2π)`. -/
theorem claim_C10_angle_ranges (s : WindState) (a : ApparentWindData) :
    (calculateDerivedWindValues s a).angleApparent ∈ Set.Icc (-Real.pi) Real.pi
    ∧ (calculateDerivedWindValues s a).angleTrueGround ∈ Set.Icc (-Real.pi) Real.pi
    ∧ (calculateDerivedWindValues s a).angleTrueWater ∈ Set.Icc (-Real.pi) Real.pi
    ∧ (calculateDerivedWindValues s a).directionTrue ∈ Set.Ico 0 (2 * Real.pi)
    ∧ (calculateDerivedWindValues s a).directionMagnetic ∈ Set.Ico 0 (2 * Real.pi) := by
  refine ⟨?_, ?_, ?_, ?_, ?_⟩
  · rw [derived_angleApparent_def]
    exact normalizeAngle_mem_Icc _
  · rw [derived_angleTrueGround_def]
    exact normalizeAngle_mem_Icc _
  · rw [derived_angleTrueWater_def]
    exact normalizeAngle_mem_Icc _
  · rw [derived_directionTrue_def]
    exact toCompassBearing_atan2_mem_Ico _ _
  · rw [derived_directionMagnetic_def]
    exact toCompassBearing_atan2_mem_Ico _ _

/-- Claim C5: the wind-chill output is non-null exactly when the air
temperature is at most 10 °C and the (derived) wind speed in km/h
(`speedTrue × 3.6`) is strictly greater than 4.8; when computed it equals
the standard wind-chill polynomial in Celsius plus 273.15 (Kelvin); at
exactly 10 °C and 4.8 km/h it is null, at 9.9 °C and 5 km/h non-null. -/
theorem claim_C5_windchill_condition (s : WindState) (a : ApparentWindData) :
    ((calculateDerivedWindValues s a).windChill ≠ none
      ↔ s.airTemp ≤ 10 ∧ (calculateDerivedWindValues s a).speedTrue * 3.6 > 4.8)
    ∧ (s.airTemp ≤ 10 → (calculateDerivedWindValues s a).speedTrue * 3.6 > 4.8 →
        (calculateDerivedWindValues s a).windChill
          = some (13.12 + 0.6215 * s.airTemp
              - 11.37 * ((calculateDerivedWindValues s a).speedTrue * 3.6) ^ (0.16 : ℝ)
              + 0.3965 * s.airTemp
                * ((calculateDerivedWindValues s a).speedTrue * 3.6) ^ (0.16 : ℝ)
              + 273.15))
    ∧ (calculateDerivedWindValues (calmState 10) (calmApparent (4/3))).windChill = none
    ∧ (calculateDerivedWindValues (calmState 9.9) (calmApparent (25/18))).windChill ≠ none := by
  refine ⟨?_, ?_, ?_, ?_⟩
  · rw [derived_windChill_def]
    constructor
    · intro h
      by_contra hc
      rw [if_neg hc] at h
      exact h rfl
    · intro h
      rw [if_pos h]
      simp
  · intro h1 h2
    rw [derived_windChill_def, if_pos ⟨h1, h2⟩]
  · rw [derived_windChill_def]
    rw [if_neg]
    rw [calm_speedTrue 10 (4/3) (by norm_num)]
    intro h
    have := h.2
    norm_num at this
  · rw [derived_windChill_def]
    rw [if_pos]
    · simp
    · constructor
      · show ((calmState 9.9).airTemp : ℝ) ≤ 10
        simp only [calmState]
        norm_num
      · rw [calm_speedTrue 9.9 (25/18) (by norm_num)]
        norm_num

/-- Closed witness for claim C5 at air temperature 9.9 °C and derived wind
speed 5 km/h (25/18 m/s). -/
theorem claim_C5_witness :
    (9.9 : ℝ) ≤ 10
    ∧ (calculateDerivedWindValues (calmState 9.9) (calmApparent (25/18))).speedTrue * 3.6 > 4.8
    ∧ (calculateDerivedWindValues (calmState 9.9) (calmApparent (25/18))).windChill ≠ none := by
  have h1 : ((calmState 9.9).airTemp : ℝ) ≤ 10 := by
    simp [calmState]
    norm_num
  have h2 : (calculateDerivedWindValues (calmState 9.9) (calmApparent (25/18))).speedTrue * 3.6
      > 4.8 := by
    rw [calm_speedTrue 9.9 (25/18) (by norm_num)]
    norm_num
  refine ⟨by norm_num, h2, ?_⟩
  exact (claim_C5_windchill_condition (calmState 9.9) (calmApparent (25/18))).1.mpr ⟨h1, h2⟩

/-- Claim C1 (code bug): at air temperature 15 °C with no wind and no
humidity, both comfort indices are null and the feels-like fallback returns
the raw stored air temperature `15` unchanged — not the Kelvin expression
`15 + 273.15` that the spec asserts for all three branches (the wind-chill
and heat-index branches do add 273.15). -/
theorem claim_C1_feelslike_fallback_not_kelvin :
    (calculateDerivedWindValues (calmState 15) (calmApparent 0)).windChill = none
    ∧ (calculateDerivedWindValues (calmState 15) (calmApparent 0)).heatIndex = none
    ∧ (calculateDerivedWindValues (calmState 15) (calmApparent 0)).feelsLike = 15
    ∧ (calculateDerivedWindValues (calmState 15) (calmApparent 0)).feelsLike ≠ 15 + 273.15 := by
  have hwc : (calculateDerivedWindValues (calmState 15) (calmApparent 0)).windChill = none := by
    rw [derived_windChill_def, if_neg]
    rw [calm_speedTrue 15 0 le_rfl]
    intro h
    have := h.2
    norm_num at this
  have hhi : (calculateDerivedWindValues (calmState 15) (calmApparent 0)).heatIndex = none := by
    rw [derived_heatIndex_def, if_neg]
    intro h
    have := h.1
    simp [calmState] at this
    norm_num at this
  have hfl : (calculateDerivedWindValues (calmState 15) (calmApparent 0)).feelsLike = 15 := by
    rw [derived_feelsLike_def, hwc, hhi]
    simp [calmState]
  exact ⟨hwc, hhi, hfl, by rw [hfl]; norm_num⟩

/-- Counterexample to claim C8 as stated: with a provided override of `0`
(and stored NavigationState air temperature 5), `calculateApparentWind`
returns `5`, not the override `0` — JavaScript `||` treats `0` as absent. -/
theorem claim_C8_counterexample :
    (calculateApparentWind (calmState 5)
        { windSpeed := 1, windDirection := 0, airTemperature := some 0 }).airTemperature = 5
    ∧ ¬ (calculateApparentWind (calmState 5)
        { windSpeed := 1, windDirection := 0, airTemperature := some 0 }).airTemperature = 0 := by
  have h : (calculateApparentWind (calmState 5)
      { windSpeed := 1, windDirection := 0, airTemperature := some 0 }).airTemperature = 5 := by
    rw [apparent_airTemperature_def]
    simp [jsOrElse, calmState]
  exact ⟨h, by rw [h]; norm_num⟩

/-- Claim C8 (amended): the returned `airTemperature` equals the override
when one is provided and non-zero; when the override is absent or `0`
(JavaScript falsy), it equals the NavigationState air temperature. -/
theorem claim_C8_amended (s : WindState) (w : WindInput) :
    (∀ x : ℝ, w.airTemperature = some x → x ≠ 0 →
      (calculateApparentWind s w).airTemperature = x)
    ∧ (w.airTemperature = none ∨ w.airTemperature = some 0 →
      (calculateApparentWind s w).airTemperature = s.airTemp) := by
  constructor
  · intro x hx hx0
    rw [apparent_airTemperature_def, hx]
    simp [jsOrElse, hx0]
  · intro h
    rcases h with h | h <;> rw [apparent_airTemperature_def, h] <;> simp [jsOrElse]

/-- Closed witness for the amended claim C8: a non-zero override of 3 is
returned, and an override of 0 falls back to the stored temperature 7. -/
theorem claim_C8_amended_witness :
    (calculateApparentWind (calmState 7)
        { windSpeed := 1, windDirection := 0, airTemperature := some 3 }).airTemperature = 3
    ∧ (calculateApparentWind (calmState 7)
        { windSpeed := 1, windDirection := 0, airTemperature := some 0 }).airTemperature = 7 := by
  constructor
  · exact (claim_C8_amended (calmState 7)
      { windSpeed := 1, windDirection := 0, airTemperature := some 3 }).1 3 rfl (by norm_num)
  · have h := (claim_C8_amended (calmState 7)
      { windSpeed := 1, windDirection := 0, airTemperature := some 0 }).2 (Or.inr rfl)
    simpa [calmState] using h

/-- With a nonnegative heading and wind direction, the computed apparent
true bearing lies in `[0, 2π)`. -/
theorem apparentTrueRad_mem (s : WindState) (w : WindInput) (hht : 0 ≤ s.headingTrue)
    (hwd : 0 ≤ w.windDirection) :
    (calculateApparentWind s w).apparentTrueRad ∈ Set.Ico 0 (2 * Real.pi) := by
  rw [apparent_apparentTrueRad_def]
  have hpi := Real.pi_pos
  have hx : 0 ≤ radToDeg s.headingTrue + w.windDirection := by
    unfold radToDeg
    have : 0 ≤ s.headingTrue * 180 / Real.pi :=
      div_nonneg (mul_nonneg hht (by norm_num)) hpi.le
    linarith
  obtain ⟨hd0, hd1⟩ := jsRem_mem_Ico _ 360 hx (by norm_num)
  unfold degToRad
  constructor
  · exact div_nonneg (mul_nonneg hd0 hpi.le) (by norm_num)
  · have h360 : 0 < (360 : ℝ) - jsRem (radToDeg s.headingTrue + w.windDirection) 360 := by
      linarith
    nlinarith [mul_pos h360 hpi]

/-- Claim C6: when the effective speed-over-ground is `0`, the derived true
wind speed equals the apparent wind speed and the true wind bearings (both
frames) equal the apparent wind's absolute bearing; the two frames coincide
when the true heading equals the magnetic heading. -/
theorem claim_C6_zero_sog_true_wind (s : WindState) (w : WindInput)
    (hT : s.headingTrue = s.headingMagnetic)
    (hSOG : effectiveSOG s = 0)
    (hws : 0 < w.windSpeed)
    (hht : 0 ≤ s.headingTrue)
    (hwd : 0 ≤ w.windDirection) :
    (calculateDerivedWindValues s (calculateApparentWind s w)).speedTrue = w.windSpeed
    ∧ (calculateDerivedWindValues s (calculateApparentWind s w)).directionTrue
        = (calculateApparentWind s w).apparentTrueRad
    ∧ (calculateDerivedWindValues s (calculateApparentWind s w)).directionMagnetic
        = (calculateApparentWind s w).apparentMagneticRad
    ∧ (calculateApparentWind s w).apparentMagneticRad
        = (calculateApparentWind s w).apparentTrueRad := by
  have hmageq : (calculateApparentWind s w).apparentMagneticRad
      = (calculateApparentWind s w).apparentTrueRad := by
    rw [apparent_apparentTrueRad_def, apparent_apparentMagneticRad_def, hT]
  obtain ⟨hθ0, hθ2⟩ := apparentTrueRad_mem s w hht hwd
  have hW1 : (trueFrameW s (calculateApparentWind s w)).1
      = w.windSpeed * Real.cos ((calculateApparentWind s w).apparentTrueRad) := by
    simp [trueFrameW, hSOG, apparent_windSpeed_def]
  have hW2 : (trueFrameW s (calculateApparentWind s w)).2
      = w.windSpeed * Real.sin ((calculateApparentWind s w).apparentTrueRad) := by
    simp [trueFrameW, hSOG, apparent_windSpeed_def]
  have hM1 : (magFrameW s (calculateApparentWind s w)).1
      = w.windSpeed * Real.cos ((calculateApparentWind s w).apparentTrueRad) := by
    simp [magFrameW, hSOG, apparent_windSpeed_def, hmageq]
  have hM2 : (magFrameW s (calculateApparentWind s w)).2
      = w.windSpeed * Real.sin ((calculateApparentWind s w).apparentTrueRad) := by
    simp [magFrameW, hSOG, apparent_windSpeed_def, hmageq]
  refine ⟨?_, ?_, ?_, hmageq⟩
  · rw [derived_speedTrue_def, hW1, hW2, sqrt_smul_cos_sin _ _ hws.le]
  · rw [derived_directionTrue_def, hW1, hW2, toCompassBearing_atan2_smul _ _ hws hθ0 hθ2]
  · rw [derived_directionMagnetic_def, hM1, hM2, hmageq,
      toCompassBearing_atan2_smul _ _ hws hθ0 hθ2]

/-- Closed witness for claim C6 at a calm state with wind speed 1 from
relative direction 90°. -/
theorem claim_C6_witness :
    (0 : ℝ) < 1
    ∧ (calculateDerivedWindValues (calmState 0)
        (calculateApparentWind (calmState 0)
          { windSpeed := 1, windDirection := 90, airTemperature := none })).speedTrue = 1 := by
  constructor
  · norm_num
  · exact (claim_C6_zero_sog_true_wind (calmState 0)
      { windSpeed := 1, windDirection := 90, airTemperature := none }
      rfl rfl (by norm_num) le_rfl (by norm_num)).1

/-! ## Unit converter (index.ts `snakeToCamel`, `convertToSignalKUnits`) -/

/-- Character-level worker for `snakeToCamel`: the regex
`/_([a-z0-9])/g` replaces each non-overlapping match of an underscore
followed by a lowercase letter or digit with that character uppercased. -/
def snakeToCamelChars : List Char → List Char
  | [] => []
  | '_' :: c :: rest =>
      if c.isLower || c.isDigit then c.toUpper :: snakeToCamelChars rest
      else '_' :: snakeToCamelChars (c :: rest)
  | c :: rest => c :: snakeToCamelChars rest

/-- `snakeToCamel` (index.ts line 1003). -/
def snakeToCamel (str : String) : String := String.mk (snakeToCamelChars str.data)

/-- `ConvertedValue` (types.ts lines 315-318); values are modeled
numerically (`Option ℝ`), `null`/`undefined` being `none`. -/
structure ConvertedValue where
  value : Option ℝ
  units : Option String

/-- `convertToSignalKUnits` (index.ts lines 1054-1165): the fixed
per-field conversion table, dispatching on the camel-normalized key.
String-valued fields (`serialNumber`, `hubSn`, `pressureTrend`) are
identity rules whose non-numeric payload is not modeled. -/
noncomputable def convertToSignalKUnits (key : String) (value : Option ℝ) : ConvertedValue :=
  match value with
  | none => { value := none, units := none }
  | some v =>
    let normalizedKey := snakeToCamel key
    match normalizedKey with
    | "airTemperature" | "feelsLike" | "heatIndex" | "windChill" | "dewPoint"
    | "wetBulbTemperature" | "wetBulbGlobeTemperature" =>
        { value := some (v + 273.15), units := some "K" }
    | "stationPressure" | "pressure" =>
        { value := some (v * 100), units := some "Pa" }
    | "windDirection" =>
        { value := some (v * (Real.pi / 180)), units := some "rad" }
    | "lightningStrikeAvgDistance" | "strikeLastDist" =>
        { value := some (v * 1000), units := some "m" }
    | "reportInterval" =>
        { value := some (v * 60), units := some "s" }
    | "rainAccumulated" | "rainAccumulatedFinal" | "localDailyRainAccumulation"
    | "localDailyRainAccumulationFinal" | "precipTotal1h" | "precipAccumLocalYesterday"
    | "precipAccumLocalYesterdayFinal" =>
        { value := some (v / 1000), units := some "m" }
    | "relativeHumidity" =>
        { value := some (v / 100), units := some "ratio" }
    | "windLull" | "windAvg" | "windGust" | "windSpeed" =>
        { value := some v, units := some "m/s" }
    | "windSampleInterval" | "timeEpoch" | "strikeLastEpoch" | "precipMinutesLocalDay"
    | "precipMinutesLocalYesterday" =>
        { value := some v, units := some "s" }
    | "illuminance" =>
        { value := some v, units := some "lux" }
    | "solarRadiation" =>
        { value := some v, units := some "W/m2" }
    | "battery" =>
        { value := some v, units := some "V" }
    | "airDensity" =>
        { value := some v, units := some "kg/m3" }
    | "deltaT" =>
        { value := some v, units := some "K" }
    | "uvIndex" | "precipitationType" | "precipType" | "lightningStrikeCount"
    | "strikeCount1h" | "strikeCount3h" | "precipitationAnalysisType" | "deviceId"
    | "firmwareRevision" | "precipAnalysisTypeYesterday" | "type" | "source"
    | "statusCode" | "statusMessage" | "id" =>
        { value := some v, units := none }
    | "serialNumber" | "hubSn" | "pressureTrend" =>
        { value := some v, units := none }
    | _ =>
        { value := some v, units := none }

/-- The temperature-like field names (camel and snake wire forms). -/
def temperatureFieldNames : List String :=
  ["airTemperature", "feelsLike", "heatIndex", "windChill", "dewPoint",
   "wetBulbTemperature", "wetBulbGlobeTemperature",
   "air_temperature", "feels_like", "heat_index", "wind_chill", "dew_point",
   "wet_bulb_temperature", "wet_bulb_globe_temperature"]

/-- The pressure-like field names (camel and snake wire forms). -/
def pressureFieldNames : List String :=
  ["stationPressure", "pressure", "station_pressure"]

/-- Claim C7: for every temperature-like field, `convert(f, 0)` is
`273.15 K`; for every pressure-like field, `convert(f, 1013.25)` is
`101325 Pa`; for the wind-direction field, `convert(f, 180)` is exactly
`π rad` (hence within `1e-9` of `π`). -/
theorem claim_C7_unit_conversion :
    (∀ f ∈ temperatureFieldNames,
      (convertToSignalKUnits f (some 0)).value = some 273.15
      ∧ (convertToSignalKUnits f (some 0)).units = some "K")
    ∧ (∀ f ∈ pressureFieldNames,
      (convertToSignalKUnits f (some 1013.25)).value = some 101325
      ∧ (convertToSignalKUnits f (some 1013.25)).units = some "Pa")
    ∧ (∀ f ∈ (["windDirection", "wind_direction"] : List String),
      (convertToSignalKUnits f (some 180)).value = some Real.pi
      ∧ (convertToSignalKUnits f (some 180)).units = some "rad"
      ∧ ∃ r : ℝ, (convertToSignalKUnits f (some 180)).value = some r
          ∧ |r - Real.pi| ≤ 1e-9) := by
  refine ⟨?_, ?_, ?_⟩
  · intro f hf
    fin_cases hf <;>
      refine ⟨?_, rfl⟩ <;>
      · show some ((0 : ℝ) + 273.15) = some 273.15
        norm_num
  · intro f hf
    fin_cases hf <;>
      refine ⟨?_, rfl⟩ <;>
      · show some ((1013.25 : ℝ) * 100) = some 101325
        norm_num
  · intro f hf
    have hval : (180 : ℝ) * (Real.pi / 180) = Real.pi := by
      field_simp
    fin_cases hf <;>
      refine ⟨?_, rfl, Real.pi, ?_, by simp; norm_num⟩ <;>
      · show some ((180 : ℝ) * (Real.pi / 180)) = some Real.pi
        rw [hval]

/-- Closed witness for claim C7 at the field names `air_temperature`,
`station_pressure` and `wind_direction`. -/
theorem claim_C7_witness :
    "air_temperature" ∈ temperatureFieldNames
    ∧ (convertToSignalKUnits "air_temperature" (some 0)).value = some 273.15 := by
  have hm : "air_temperature" ∈ temperatureFieldNames := by
    unfold temperatureFieldNames
    simp
  exact ⟨hm, (claim_C7_unit_conversion.1 "air_temperature" hm).1⟩

/-! ## Weather API provider: data model (index.ts / types.ts)

ISO timestamp strings are identified with epoch milliseconds (`ℤ`), so
`new Date(s).getTime()` and `toISOString` are the identity; optional JS
values are `Option`; a JS conditional `x ? f(x) : undefined` on an
optional number is `jsTernMap` (`undefined` and `0` are falsy). -/

/-- An optional-number conditional `x ? f(x) : undefined`. -/
def jsTernMap (o : Option ℝ) (f : ℝ → ℝ) : Option ℝ :=
  match o with
  | none => none
  | some v => if v = 0 then none else some (f v)

/-- `Position` (latitude/longitude, degrees); the `timestamp` member is
not observed by any verified property and is omitted. -/
structure Position where
  latitude : ℝ
  longitude : ℝ

/-- The `outside` sub-object of the external `WeatherData` shape. -/
structure WeatherOutside where
  temperature : Option ℝ := none
  pressure : Option ℝ := none
  relativeHumidity : Option ℝ := none
  feelsLikeTemperature : Option ℝ := none
  dewPointTemperature : Option ℝ := none
  uvIndex : Option ℝ := none
  precipitationVolume : Option ℝ := none
  solarRadiation : Option ℝ := none
  airDensity : Option ℝ := none
  wetBulbTemperature : Option ℝ := none
  wetBulbGlobeTemperature : Option ℝ := none
  deltaT : Option ℝ := none
  illuminance : Option ℝ := none
  maxTemperature : Option ℝ := none
  minTemperature : Option ℝ := none
  precipitationProbability : Option ℝ := none
  pressureTendency : Option String := none
  precipitationType : Option String := none

/-- The `wind` sub-object of the external `WeatherData` shape. -/
structure WeatherWind where
  speedTrue : Option ℝ := none
  directionTrue : Option ℝ := none
  gust : Option ℝ := none
  averageSpeed : Option ℝ := none
  directionCardinal : Option String := none

/-- The external `WeatherData` record returned by the provider. -/
structure WeatherData where
  date : ℤ
  wtype : String
  description : String
  outside : Option WeatherOutside := none
  wind : Option WeatherWind := none
  sun : Option (String × String) := none

/-- One forecast entry (`HourlyForecast`/`DailyForecast`, types.ts
lines 242-279, merged since the source accesses them as `any`). -/
structure ForecastEntry where
  time : ℤ
  datetime : Option ℤ := none
  conditions : Option String := none
  air_temperature : Option ℝ := none
  feels_like : Option ℝ := none
  relative_humidity : Option ℝ := none
  precip : Option ℝ := none
  precip_probability : Option ℝ := none
  precip_type : Option String := none
  uv : Option ℝ := none
  sea_level_pressure : Option ℝ := none
  station_pressure : Option ℝ := none
  wind_avg : Option ℝ := none
  wind_direction : Option ℝ := none
  wind_gust : Option ℝ := none
  air_temp_high : Option ℝ := none
  air_temp_low : Option ℝ := none
  sunrise_iso : Option String := none
  sunset_iso : Option String := none

/-- The cached forecast bundle (`state.latestForecastData.forecast`);
an absent `hourly`/`daily` array behaves exactly like an empty one in
`getForecasts`, so both are plain lists. -/
structure ForecastBundle where
  hourly : List ForecastEntry
  daily : List ForecastEntry

/-- `WeatherForecastType`: `"point"` or `"daily"`. -/
inductive WeatherForecastType where
  | point
  | daily

/-- `WeatherReqParams`: optional `maxCount` and `startDate`. -/
structure WeatherReqParams where
  maxCount : Option ℕ := none
  startDate : Option ℤ := none

/-- `mapPrecipitationType` on a numeric WeatherFlow code (index.ts
lines 1441-1453). -/
def mapPrecipitationTypeNum (p : ℝ) : String :=
  if p = 0 then "not available"
  else if p = 1 then "rain"
  else if p = 2 then "snow"
  else if p = 3 then "mixed/ice"
  else "not available"

/-- `mapPrecipitationType` on an optional string argument (index.ts
lines 1428-1439); an absent value falls through the numeric `switch` to
its default. -/
def mapPrecipitationTypeOfStr (o : Option String) : String :=
  match o with
  | some s =>
      if s.toLower = "rain" then "rain"
      else if s.toLower = "snow" then "snow"
      else if s.toLower = "thunderstorm" then "thunderstorm"
      else "not available"
  | none => "not available"

/-- `mapPressureTendency` (index.ts lines 1457-1468). -/
def mapPressureTendency (pressureTrend : String) : String :=
  if pressureTrend = "falling" then "decreasing"
  else if pressureTrend = "rising" then "increasing"
  else if pressureTrend = "steady" then "steady"
  else "steady"

/-- `calculateWetBulbTemperature` (index.ts lines 1471-1488): Stull
approximation; `undefined` inputs yield `undefined`. -/
noncomputable def calculateWetBulbTemperature (tempC relativeHumidity : Option ℝ) : Option ℝ :=
  match tempC, relativeHumidity with
  | some tempC, some relativeHumidity =>
      let rh := relativeHumidity / 100
      let tw := tempC * Real.arctan (0.151977 * Real.sqrt (rh + 8.313659))
        + Real.arctan (tempC + rh) - Real.arctan (rh - 1.676331)
        + 0.00391838 * rh ^ (1.5 : ℝ) * Real.arctan (0.023101 * rh) - 4.686035
      some (tw + 273.15)
  | _, _ => none

/-- `convertForecastToWeatherAPI` (index.ts lines 1339-1422). -/
noncomputable def convertForecastToWeatherAPI (forecast : ForecastEntry)
    (ty : WeatherForecastType) : WeatherData :=
  let baseWeatherData : WeatherData :=
    { date := forecast.datetime.getD (forecast.time * 1000)
      wtype := match ty with
        | .point => "point"
        | .daily => "daily"
      description := forecast.conditions.getD
        ("WeatherFlow " ++ (match ty with
          | .point => "point"
          | .daily => "daily") ++ " forecast") }
  match ty with
  | .point =>
    { baseWeatherData with
      outside := some
        { temperature := forecast.air_temperature.map (· + 273.15)
          feelsLikeTemperature := forecast.feels_like.map (· + 273.15)
          relativeHumidity := jsTernMap forecast.relative_humidity (· / 100)
          precipitationVolume := jsTernMap forecast.precip (· / 1000)
          pressure := match forecast.sea_level_pressure with
            | some p =>
                if p = 0 then jsTernMap forecast.station_pressure (· * 100)
                else some (p * 100)
            | none => jsTernMap forecast.station_pressure (· * 100)
          uvIndex := forecast.uv
          wetBulbTemperature := calculateWetBulbTemperature forecast.air_temperature
            forecast.relative_humidity
          precipitationProbability := jsTernMap forecast.precip_probability (· / 100) }
      wind := some
        { speedTrue := forecast.wind_avg
          directionTrue := jsTernMap forecast.wind_direction (· * (Real.pi / 180))
          gust := forecast.wind_gust
          averageSpeed := forecast.wind_avg } }
  | .daily =>
    { baseWeatherData with
      outside := some
        { maxTemperature := jsTernMap forecast.air_temp_high (· + 273.15)
          minTemperature := jsTernMap forecast.air_temp_low (· + 273.15)
          precipitationType := some (mapPrecipitationTypeOfStr forecast.precip_type)
          precipitationProbability := jsTernMap forecast.precip_probability (· / 100) }
      wind := some
        { speedTrue := forecast.wind_avg
          directionTrue := jsTernMap forecast.wind_direction (· * (Real.pi / 180))
          averageSpeed := forecast.wind_avg }
      sun := match forecast.sunrise_iso, forecast.sunset_iso with
        | some sunrise, some sunset => some (sunrise, sunset)
        | _, _ => none }

/-- A cached observation record (`state.latestObservations` values): the
duck-typed union of the fields `convertObservationToWeatherAPI` and
`getWarnings` read.  REST `currentConditions` records carry the
snake_case fields, UDP-cached records the camelCase ones; `timestamp` is
stamped by `cacheObservationData` (index.ts line 1240). -/
structure ObsRecord where
  timestamp : Option ℤ := none
  utcDate : Option ℤ := none
  time : Option ℤ := none
  conditions : Option String := none
  air_temperature : Option ℝ := none
  sea_level_pressure : Option ℝ := none
  station_pressure : Option ℝ := none
  relative_humidity : Option ℝ := none
  feels_like : Option ℝ := none
  dew_point : Option ℝ := none
  uv : Option ℝ := none
  pressure_trend : Option String := none
  solar_radiation : Option ℝ := none
  air_density : Option ℝ := none
  wet_bulb_temperature : Option ℝ := none
  wet_bulb_globe_temperature : Option ℝ := none
  delta_t : Option ℝ := none
  wind_avg : Option ℝ := none
  wind_direction : Option ℝ := none
  wind_gust : Option ℝ := none
  wind_direction_cardinal : Option String := none
  airTemperature : Option ℝ := none
  stationPressure : Option ℝ := none
  relativeHumidity : Option ℝ := none
  uvIndex : Option ℝ := none
  rainAccumulated : Option ℝ := none
  precipitationType : Option ℝ := none
  solarRadiation : Option ℝ := none
  illuminance : Option ℝ := none
  windAvg : Option ℝ := none
  windDirection : Option ℝ := none
  windGust : Option ℝ := none
  windSpeed : Option ℝ := none
  timeEpoch : ℤ := 0
  lightningStrikeCount : ℤ := 0
  lightningStrikeAvgDistance : ℝ := 0

/-- `Math.round` (round half towards positive infinity). -/
noncomputable def jsRound (x : ℝ) : ℤ := ⌊x + 1 / 2⌋

/-- `convertObservationToWeatherAPI` (index.ts lines 1250-1336); `now`
models `Date.now()` in the date fallback. -/
noncomputable def convertObservationToWeatherAPI (now : ℤ) (observationType : String)
    (data : ObsRecord) : WeatherData :=
  let baseWeatherData : WeatherData :=
    { date := data.utcDate.getD (match data.time with
        | some t => t * 1000
        | none => now)
      wtype := "observation"
      description := data.conditions.getD
        ("WeatherFlow " ++ observationType ++ " observation") }
  let withRich :=
    if observationType = "currentConditions" then
      { baseWeatherData with
        outside := some
          { temperature := data.air_temperature.map (· + 273.15)
            pressure := match data.sea_level_pressure with
              | some p =>
                  if p = 0 then data.station_pressure.map (· * 100) else some (p * 100)
              | none => data.station_pressure.map (· * 100)
            relativeHumidity := data.relative_humidity.map (· / 100)
            feelsLikeTemperature := data.feels_like.map (· + 273.15)
            dewPointTemperature := data.dew_point.map (· + 273.15)
            uvIndex := data.uv
            precipitationVolume := some 0
            pressureTendency := some (mapPressureTendency (data.pressure_trend.getD ""))
            solarRadiation := data.solar_radiation
            airDensity := data.air_density
            wetBulbTemperature := jsTernMap data.wet_bulb_temperature (· + 273.15)
            wetBulbGlobeTemperature := jsTernMap data.wet_bulb_globe_temperature (· + 273.15)
            deltaT := data.delta_t }
        wind := some
          { speedTrue := data.wind_avg
            directionTrue := data.wind_direction.map (· * (Real.pi / 180))
            gust := data.wind_gust
            averageSpeed := data.wind_avg
            directionCardinal := data.wind_direction_cardinal } }
    else if observationType = "tempest" then
      { baseWeatherData with
        outside := some
          { temperature := data.airTemperature
            pressure := data.stationPressure
            relativeHumidity := data.relativeHumidity
            uvIndex := data.uvIndex
            precipitationVolume := data.rainAccumulated
            precipitationType := some (match data.precipitationType with
              | some p => mapPrecipitationTypeNum p
              | none => "not available")
            solarRadiation := data.solarRadiation
            illuminance := data.illuminance }
        wind := some
          { speedTrue := data.windAvg
            directionTrue := data.windDirection
            gust := data.windGust
            averageSpeed := data.windAvg } }
    else baseWeatherData
  if observationType = "rapidWind" then
    { withRich with
      wind := some
        { speedTrue := data.windSpeed
          directionTrue := data.windDirection } }
  else if observationType = "air" then
    { withRich with
      outside := some
        { temperature := data.airTemperature
          pressure := data.stationPressure
          relativeHumidity := data.relativeHumidity } }
  else withRich

/-- `WeatherWarning` (start/end as epoch milliseconds). -/
structure WeatherWarning where
  startTime : ℤ
  endTime : ℤ
  details : String
  source : String
  wtype : String

/-! ## Weather API provider: state, distance gate, queries -/

/-- The plugin state observed by the query facade. -/
structure ProviderState where
  latestObservations : List (String × ObsRecord) := []
  latestForecastData : Option ForecastBundle
  stationLocation : Option Position
  currentVesselPosition : Option Position

/-- `getCurrentVesselPosition` (index.ts line 1509). -/
def getCurrentVesselPosition (st : ProviderState) : Option Position :=
  st.currentVesselPosition

/-- `getStationLocation` (index.ts lines 1491-1506): vessel position if
known, else the configured station location, else the origin. -/
def getStationLocation (st : ProviderState) : Position :=
  match getCurrentVesselPosition st with
  | some vesselPosition => vesselPosition
  | none => st.stationLocation.getD { latitude := 0, longitude := 0 }

/-- `calculateDistance` (index.ts lines 1514-1527): haversine distance on
a sphere of radius 6 371 000 m (the source's `Δλ` local is spelled
`Δlon`, `λ` being reserved in Lean). -/
noncomputable def calculateDistance (pos1 pos2 : Position) : ℝ :=
  let R : ℝ := 6371000
  let φ1 := pos1.latitude * Real.pi / 180
  let φ2 := pos2.latitude * Real.pi / 180
  let Δφ := (pos2.latitude - pos1.latitude) * Real.pi / 180
  let Δlon := (pos2.longitude - pos1.longitude) * Real.pi / 180
  let a := Real.sin (Δφ / 2) * Real.sin (Δφ / 2)
    + Real.cos φ1 * Real.cos φ2 * Real.sin (Δlon / 2) * Real.sin (Δlon / 2)
  let c := 2 * atan2 (Real.sqrt a) (Real.sqrt (1 - a))
  R * c

/-- `getForecasts` (index.ts lines 578-650): distance gate, then the
cached bundle's hourly (point) or daily entries mapped to the external
shape; a `startDate` filter returns immediately; otherwise a truthy
`maxCount` truncates. -/
noncomputable def getForecasts (st : ProviderState) (position : Position)
    (ty : WeatherForecastType) (options : WeatherReqParams) : List WeatherData :=
  let stationPos := getStationLocation st
  let distance := calculateDistance position stationPos
  let maxDistance : ℝ := 100000
  if distance > maxDistance then []
  else
    match st.latestForecastData with
    | none => []
    | some forecastData =>
      let forecasts : List WeatherData :=
        match ty with
        | .point => (forecastData.hourly.take 72).map (convertForecastToWeatherAPI · .point)
        | .daily => (forecastData.daily.take 10).map (convertForecastToWeatherAPI · .daily)
      match options.startDate with
      | some startTime => forecasts.filter (fun f => f.date ≥ startTime)
      | none =>
        match options.maxCount with
        | some maxCount =>
            if maxCount ≠ 0 ∧ forecasts.length > maxCount then forecasts.take maxCount
            else forecasts
        | none => forecasts

/-- The bundle entries `getForecasts` reads for a requested kind:
`forecast.hourly` for `"point"`, `forecast.daily` for `"daily"`
(index.ts lines 604 and 617). -/
def bundleEntries (fd : ForecastBundle) : WeatherForecastType → List ForecastEntry
  | .point => fd.hourly
  | .daily => fd.daily

/-- The `forecasts` list `getForecasts` builds for a requested kind before
filtering/truncation: hourly entries truncated to 72 (point) or daily
entries truncated to 10 (daily), mapped to the external shape. -/
def mappedForecasts (fd : ForecastBundle) : WeatherForecastType → List WeatherData
  | .point => (fd.hourly.take 72).map (convertForecastToWeatherAPI · .point)
  | .daily => (fd.daily.take 10).map (convertForecastToWeatherAPI · .daily)

/-- The haversine distance from a point to itself is `0`. -/
theorem calculateDistance_self (p : Position) : calculateDistance p p = 0 := by
  unfold calculateDistance atan2
  simp

/-! ## Concrete provider states for boundary cases -/

/-- The origin position. -/
def originPos : Position := { latitude := 0, longitude := 0 }

/-- A state with a known vessel position but no cached forecast bundle. -/
def noBundleState : ProviderState :=
  { latestForecastData := none
    stationLocation := none
    currentVesselPosition := some originPos }

/-- A bundle with a single hourly entry (epoch second 1). -/
def oneEntryBundle : ForecastBundle :=
  { hourly := [{ time := 1 }], daily := [] }

/-- A state caching `oneEntryBundle`, vessel at the origin. -/
def oneEntryState : ProviderState :=
  { latestForecastData := some oneEntryBundle
    stationLocation := none
    currentVesselPosition := some originPos }

/-- A bundle with a single daily entry (epoch second 1). -/
def oneDailyBundle : ForecastBundle :=
  { hourly := [], daily := [{ time := 1 }] }

/-- A state caching `oneDailyBundle`, vessel at the origin. -/
def oneDailyState : ProviderState :=
  { latestForecastData := some oneDailyBundle
    stationLocation := none
    currentVesselPosition := some originPos }

/-- A bundle with two hourly entries (epoch seconds 1 and 2). -/
def twoEntryBundle : ForecastBundle :=
  { hourly := [{ time := 1 }, { time := 2 }], daily := [] }

/-- A state caching `twoEntryBundle`, vessel at the origin. -/
def twoEntryState : ProviderState :=
  { latestForecastData := some twoEntryBundle
    stationLocation := none
    currentVesselPosition := some originPos }

/-- Counterexample to claim C4 as stated: with no cached bundle and the
requested position at the station itself (distance 0 ≤ 100 000 m),
`getForecasts` still returns the empty list, so emptiness is not
equivalent to exceeding the distance gate "regardless of the cached
bundle's contents". -/
theorem claim_C4_counterexample :
    getForecasts noBundleState originPos WeatherForecastType.point {} = []
    ∧ ¬ calculateDistance originPos (getStationLocation noBundleState) > 100000 := by
  have hs : getStationLocation noBundleState = originPos := rfl
  have hd : calculateDistance originPos (getStationLocation noBundleState) = 0 := by
    rw [hs]
    exact calculateDistance_self _
  constructor
  · simp only [getForecasts, hd]
    norm_num
    rfl
  · rw [hd]
    norm_num

/-- Claim C4 (amended): the distance between the requested position and
the station position (vessel position, else configured fallback, else the
origin) is the haversine distance with Earth radius 6 371 000 m, and
`getForecasts` returns the empty list whenever that distance strictly
exceeds 100 000 m; within the gate the result is non-empty provided the
cached bundle has entries of the requested kind — hourly for `point`,
daily for `daily` — (and no `startDate` filter applies). -/
theorem claim_C4_amended (st : ProviderState) (position : Position)
    (ty : WeatherForecastType) (options : WeatherReqParams) :
    (calculateDistance position (getStationLocation st) > 100000 →
      getForecasts st position ty options = [])
    ∧ (¬ calculateDistance position (getStationLocation st) > 100000 →
      ∀ fd, st.latestForecastData = some fd → bundleEntries fd ty ≠ [] →
        options.startDate = none →
        getForecasts st position ty options ≠ []) := by
  constructor
  · intro h
    simp only [getForecasts]
    rw [if_pos h]
  · intro h fd hfd hne hsd
    cases ty with
    | point =>
        simp only [getForecasts, hfd, hsd]
        rw [if_neg h]
        have hmap : (fd.hourly.take 72).map (convertForecastToWeatherAPI · .point) ≠ [] := by
          simp only [ne_eq, List.map_eq_nil_iff, List.take_eq_nil_iff]
          push_neg
          exact ⟨by norm_num, hne⟩
        cases hm : options.maxCount with
        | none => exact hmap
        | some m =>
            dsimp only
            by_cases hcond : m ≠ 0
                ∧ ((fd.hourly.take 72).map (convertForecastToWeatherAPI · .point)).length > m
            · rw [if_pos hcond]
              simp only [ne_eq, List.take_eq_nil_iff]
              push_neg
              exact ⟨hcond.1, hmap⟩
            · rw [if_neg hcond]
              exact hmap
    | daily =>
        simp only [getForecasts, hfd, hsd]
        rw [if_neg h]
        have hmap : (fd.daily.take 10).map (convertForecastToWeatherAPI · .daily) ≠ [] := by
          simp only [ne_eq, List.map_eq_nil_iff, List.take_eq_nil_iff]
          push_neg
          exact ⟨by norm_num, hne⟩
        cases hm : options.maxCount with
        | none => exact hmap
        | some m =>
            dsimp only
            by_cases hcond : m ≠ 0
                ∧ ((fd.daily.take 10).map (convertForecastToWeatherAPI · .daily)).length > m
            · rw [if_pos hcond]
              simp only [ne_eq, List.take_eq_nil_iff]
              push_neg
              exact ⟨hcond.1, hmap⟩
            · rw [if_neg hcond]
              exact hmap

/-- Closed witness for the amended claim C4: at distance 0, a cached
bundle with one hourly entry gives a non-empty `point` result and a
cached bundle with one daily entry gives a non-empty `daily` result. -/
theorem claim_C4_amended_witness :
    ¬ calculateDistance originPos (getStationLocation oneEntryState) > 100000
    ∧ getForecasts oneEntryState originPos WeatherForecastType.point {} ≠ []
    ∧ getForecasts oneDailyState originPos WeatherForecastType.daily {} ≠ [] := by
  have hd : calculateDistance originPos (getStationLocation oneEntryState) = 0 :=
    calculateDistance_self _
  have hdist : ¬ calculateDistance originPos (getStationLocation oneEntryState) > 100000 := by
    rw [hd]
    norm_num
  have hdDaily : calculateDistance originPos (getStationLocation oneDailyState) = 0 :=
    calculateDistance_self _
  have hdistDaily : ¬ calculateDistance originPos (getStationLocation oneDailyState) > 100000 := by
    rw [hdDaily]
    norm_num
  refine ⟨hdist, ?_, ?_⟩
  · exact (claim_C4_amended oneEntryState originPos WeatherForecastType.point {}).2 hdist
      oneEntryBundle rfl (by simp [bundleEntries, oneEntryBundle]) rfl
  · exact (claim_C4_amended oneDailyState originPos WeatherForecastType.daily {}).2 hdistDaily
      oneDailyBundle rfl (by simp [bundleEntries, oneDailyBundle]) rfl

/-- Counterexample to claim C2 as stated: with two cached hourly entries,
`startDate = 0` (both entries pass the filter) and `maxCount = 1`, the
returned list has length 2 — the `startDate` branch returns immediately
and `maxCount` is never applied. -/
theorem claim_C2_counterexample :
    (getForecasts twoEntryState originPos WeatherForecastType.point
      { maxCount := some 1, startDate := some 0 }).length = 2
    ∧ ¬ (getForecasts twoEntryState originPos WeatherForecastType.point
      { maxCount := some 1, startDate := some 0 }).length ≤ 1 := by
  have hd : calculateDistance originPos (getStationLocation twoEntryState) = 0 :=
    calculateDistance_self _
  have hlen : (getForecasts twoEntryState originPos WeatherForecastType.point
      { maxCount := some 1, startDate := some 0 }).length = 2 := by
    simp only [getForecasts, hd]
    norm_num
    rfl
  exact ⟨hlen, by rw [hlen]; norm_num⟩

/-- Claim C2 (amended): within the distance gate with a cached bundle,
for either requested kind (`point` mapping the hourly entries, `daily`
mapping the daily entries), when `startDate` is given the returned list
is exactly the filter of the mapped entries to dates at/after
`startDate` (so every returned date is at/after `startDate`), and any
supplied `maxCount` is ignored (the `startDate` branch returns
immediately). -/
theorem claim_C2_amended (st : ProviderState) (position : Position)
    (ty : WeatherForecastType) (options : WeatherReqParams) (t0 : ℤ) (fd : ForecastBundle)
    (hdist : ¬ calculateDistance position (getStationLocation st) > 100000)
    (hfd : st.latestForecastData = some fd)
    (hsd : options.startDate = some t0) :
    getForecasts st position ty options
      = (mappedForecasts fd ty).filter (fun f => f.date ≥ t0)
    ∧ ∀ f ∈ getForecasts st position ty options, t0 ≤ f.date := by
  have heq : getForecasts st position ty options
      = (mappedForecasts fd ty).filter (fun f => f.date ≥ t0) := by
    cases ty <;>
    · simp only [getForecasts, mappedForecasts, hfd, hsd]
      rw [if_neg hdist]
  refine ⟨heq, ?_⟩
  intro f hf
  rw [heq] at hf
  exact of_decide_eq_true (List.mem_filter.mp hf).2

/-- Closed witness for the amended claim C2: on the two-hourly-entry
state with a `point` query and on the one-daily-entry state with a
`daily` query, both with `startDate = 0` and `maxCount = 1`. -/
theorem claim_C2_amended_witness :
    ¬ calculateDistance originPos (getStationLocation twoEntryState) > 100000
    ∧ (∀ f ∈ getForecasts twoEntryState originPos WeatherForecastType.point
        { maxCount := some 1, startDate := some 0 }, (0 : ℤ) ≤ f.date)
    ∧ (∀ f ∈ getForecasts oneDailyState originPos WeatherForecastType.daily
        { maxCount := some 1, startDate := some 0 }, (0 : ℤ) ≤ f.date) := by
  have hd : calculateDistance originPos (getStationLocation twoEntryState) = 0 :=
    calculateDistance_self _
  have hdist : ¬ calculateDistance originPos (getStationLocation twoEntryState) > 100000 := by
    rw [hd]
    norm_num
  have hdDaily : calculateDistance originPos (getStationLocation oneDailyState) = 0 :=
    calculateDistance_self _
  have hdistDaily : ¬ calculateDistance originPos (getStationLocation oneDailyState) > 100000 := by
    rw [hdDaily]
    norm_num
  refine ⟨hdist, ?_, ?_⟩
  · exact (claim_C2_amended twoEntryState originPos WeatherForecastType.point
      { maxCount := some 1, startDate := some 0 } 0 twoEntryBundle hdist rfl rfl).2
  · exact (claim_C2_amended oneDailyState originPos WeatherForecastType.daily
      { maxCount := some 1, startDate := some 0 } 0 oneDailyBundle hdistDaily rfl rfl).2

/-- `getObservations` (index.ts lines 555-576): converts every cached
record that carries a `timestamp`, ignoring the requested position; a
truthy `maxCount` truncates.  The source's push-loop over the map entries
is the filter-then-map over the entry list. -/
noncomputable def getObservations (now : ℤ) (st : ProviderState) (_position : Position)
    (options : WeatherReqParams) : List WeatherData :=
  let observations :=
    (st.latestObservations.filter (fun kv => kv.2.timestamp ≠ none)).map
      (fun kv => convertObservationToWeatherAPI now kv.1 kv.2)
  match options.maxCount with
  | some maxCount =>
      if maxCount ≠ 0 ∧ observations.length > maxCount then observations.take maxCount
      else observations
  | none => observations

/-- `getWarnings` (index.ts lines 652-675): one lightning warning from the
cached `"tempest"` record while within 30 minutes of the last strike. -/
noncomputable def getWarnings (now : ℤ) (st : ProviderState) (_position : Position) :
    List WeatherWarning :=
  match st.latestObservations.lookup "tempest" with
  | none => []
  | some lightningData =>
    if lightningData.lightningStrikeCount > 0 then
      let lastStrikeTime := lightningData.timeEpoch * 1000
      let warningEndTime := lastStrikeTime + 30 * 60 * 1000
      if now < warningEndTime then
        [{ startTime := lastStrikeTime
           endTime := warningEndTime
           details := "Lightning activity detected. "
             ++ toString lightningData.lightningStrikeCount
             ++ " strikes recorded. Last strike at average distance of "
             ++ toString (jsRound lightningData.lightningStrikeAvgDistance) ++ "m."
           source := "WeatherFlow Station"
           wtype := "lightning" }]
      else []
    else []

/-- Claim C9: `getObservations` ignores the requested position — two calls
on the same cache state with different positions return identical lists. -/
theorem claim_C9_observations_ignore_position (now : ℤ) (st : ProviderState)
    (options : WeatherReqParams) (p1 p2 : Position) :
    getObservations now st p1 options = getObservations now st p2 options := rfl

/-- Claim C3: for a cached `"tempest"` record, `getWarnings` returns
exactly one warning — spanning `[lastStrikeTime, lastStrikeTime + 30min]`
with the strike count and rounded average strike distance in its
description — precisely when the strike count is positive and `now` is
before `lastStrikeTime + 30min`; otherwise the empty list. -/
theorem claim_C3_lightning_warning (now : ℤ) (st : ProviderState) (p : Position)
    (d : ObsRecord) (hd : st.latestObservations.lookup "tempest" = some d) :
    (0 < d.lightningStrikeCount ∧ now < d.timeEpoch * 1000 + 30 * 60 * 1000 →
      getWarnings now st p
        = [{ startTime := d.timeEpoch * 1000
             endTime := d.timeEpoch * 1000 + 30 * 60 * 1000
             details := "Lightning activity detected. "
               ++ toString d.lightningStrikeCount
               ++ " strikes recorded. Last strike at average distance of "
               ++ toString (jsRound d.lightningStrikeAvgDistance) ++ "m."
             source := "WeatherFlow Station"
             wtype := "lightning" }])
    ∧ (¬ (0 < d.lightningStrikeCount ∧ now < d.timeEpoch * 1000 + 30 * 60 * 1000) →
      getWarnings now st p = []) := by
  constructor
  · intro h
    simp only [getWarnings, hd]
    rw [if_pos h.1, if_pos h.2]
  · intro h
    simp only [getWarnings, hd]
    by_cases hc : 0 < d.lightningStrikeCount
    · have hn : ¬ now < d.timeEpoch * 1000 + 30 * 60 * 1000 := by
        intro hlt
        exact h ⟨hc, hlt⟩
      rw [if_pos hc, if_neg hn]
    · rw [if_neg hc]

/-- The concrete cached tempest record used by the claim C3 witness:
3 strikes, last strike at epoch second 1000, average distance 2500 m. -/
def strikeRecord : ObsRecord :=
  { timestamp := some 0
    timeEpoch := 1000
    lightningStrikeCount := 3
    lightningStrikeAvgDistance := 2500 }

/-- A provider state caching only `strikeRecord` under `"tempest"`. -/
def strikeState : ProviderState :=
  { latestObservations := [("tempest", strikeRecord)]
    latestForecastData := none
    stationLocation := none
    currentVesselPosition := none }

/-- Closed witness for claim C3: 10 ms after the strike the warning list
is the expected singleton. -/
theorem claim_C3_witness :
    (0 : ℤ) < strikeRecord.lightningStrikeCount
    ∧ (1000010 : ℤ) < strikeRecord.timeEpoch * 1000 + 30 * 60 * 1000
    ∧ getWarnings 1000010 strikeState originPos
        = [{ startTime := 1000000
             endTime := 2800000
             details := "Lightning activity detected. 3 strikes recorded. Last strike at average distance of 2500m."
             source := "WeatherFlow Station"
             wtype := "lightning" }] := by
  have h1 : (0 : ℤ) < strikeRecord.lightningStrikeCount := by
    unfold strikeRecord
    norm_num
  have h2 : (1000010 : ℤ) < strikeRecord.timeEpoch * 1000 + 30 * 60 * 1000 := by
    unfold strikeRecord
    norm_num
  have hlookup : strikeState.latestObservations.lookup "tempest" = some strikeRecord := rfl
  have hw := (claim_C3_lightning_warning 1000010 strikeState originPos strikeRecord
    hlookup).1 ⟨h1, h2⟩
  have hround : jsRound strikeRecord.lightningStrikeAvgDistance = 2500 := by
    unfold strikeRecord jsRound
    rw [Int.floor_eq_iff]
    norm_num
  refine ⟨h1, h2, ?_⟩
  rw [hw, hround]
  rfl

end

end WeatherFlow
